import Mathlib

/-!
Shallow embedding of `src/src/instruction.rs` of the larix lending program:
the `LendingInstruction` tagged union, its byte decoder `unpack`, its byte
encoder `pack`, and the `refresh_reserves` instruction builder.

Bytes are modelled as `Nat` (a real buffer holds values below 256); pubkeys
and 32-byte arrays are modelled as byte lists of length 32.  Fallible Rust
code returning `Result` is modelled with `Except`; a Rust `Vec<u8>` is a
`List Nat`.
-/

namespace Larix

/-- A 32-byte identity value (Solana `Pubkey`), modelled as its byte list. -/
abbrev Pubkey := List Nat

/-- Decode failure taxonomy.  In the source every failure site returns the
same value `LendingError::InstructionUnpackError` (the `LendingError` enum
lives in `error.rs`, outside `src/`); the constructors here name the distinct
failure sites of the source: the empty-input check at `split_first`, the
default match arm for an unregistered tag, and the fixed-width primitive
failures of `util/unpack_util`. -/
inductive UnpackError where
  | MissingTag
  | UnrecognizedOperation
  | TruncatedInput
  | InvalidFieldEncoding
deriving DecidableEq

/-- Little-endian value of a byte list: byte 0 is least significant. -/
def leDecode (l : List Nat) : Nat :=
  l.foldr (fun b acc => b + 256 * acc) 0

/-- Modelled from the spec: `unpack_u8` of `util/unpack_util` (not under
`src/`): consume one byte from the front, fail on fewer. -/
def unpack_u8 : List Nat → Except UnpackError (Nat × List Nat)
  | [] => .error .TruncatedInput
  | b :: rest => .ok (b, rest)

/-- Modelled from the spec: `unpack_u16` of `util/unpack_util`: consume two
bytes, little-endian, fail on fewer. -/
def unpack_u16 (input : List Nat) : Except UnpackError (Nat × List Nat) :=
  if 2 ≤ input.length then .ok (leDecode (input.take 2), input.drop 2)
  else .error .TruncatedInput

/-- Modelled from the spec: `unpack_u64` of `util/unpack_util`: consume eight
bytes, little-endian, fail on fewer. -/
def unpack_u64 (input : List Nat) : Except UnpackError (Nat × List Nat) :=
  if 8 ≤ input.length then .ok (leDecode (input.take 8), input.drop 8)
  else .error .TruncatedInput

/-- Modelled from the spec: `unpack_pubkey` of `util/unpack_util`: consume 32
bytes as an identity value, fail on fewer. -/
def unpack_pubkey (input : List Nat) : Except UnpackError (Pubkey × List Nat) :=
  if 32 ≤ input.length then .ok (input.take 32, input.drop 32)
  else .error .TruncatedInput

/-- Modelled from the spec: `unpack_bytes32` of `util/unpack_util`: consume 32
raw bytes, fail on fewer. -/
def unpack_bytes32 (input : List Nat) : Except UnpackError (List Nat × List Nat) :=
  if 32 ≤ input.length then .ok (input.take 32, input.drop 32)
  else .error .TruncatedInput

/-- Modelled from the spec: `unpack_bool` of `util/unpack_util`: one byte,
`0` is `false`, `1` is `true`, any other byte is rejected. -/
def unpack_bool : List Nat → Except UnpackError (Bool × List Nat)
  | [] => .error .TruncatedInput
  | 0 :: rest => .ok (false, rest)
  | 1 :: rest => .ok (true, rest)
  | _ :: _ => .error .InvalidFieldEncoding

/-- The `LendingInstruction` enum of `instruction.rs`, one constructor per
variant, with the fields the source declares (tag 2 keeps only the four
retained fields, exactly as the Rust enum does). -/
inductive LendingInstruction where
  | InitLendingMarket (owner : Pubkey) (quote_currency : List Nat)
  | SetLendingMarketOwner (new_owner : Pubkey)
  | InitReserve (total_mining_speed kink_util_rate : Nat)
      (use_pyth_oracle is_lp : Bool)
  | RefreshReserve
  | DepositReserveLiquidity (liquidity_amount : Nat)
  | RedeemReserveCollateral (collateral_amount : Nat)
  | InitObligation
  | RefreshObligation
  | DepositObligationCollateral (collateral_amount : Nat)
  | WithdrawObligationCollateral (collateral_amount : Nat)
  | BorrowObligationLiquidity (liquidity_amount : Nat)
  | RepayObligationLiquidity (liquidity_amount : Nat)
  | LiquidateObligation (liquidity_amount : Nat)
  | FlashLoan (amount : Nat) (call_back_data : List Nat)
  | SetConfig
  | InitMining
  | RefreshMining
  | DepositMining (amount : Nat)
  | WithdrawMining (amount : Nat)
  | ClaimMiningMine
  | ClaimObligationMine
  | ClaimOwnerFee
  | ReceivePendingOwner
  | RefreshReserves
  | LiquidateObligation2 (liquidity_amount : Nat)
  | ClaimMine ( claim_times claim_ratio : Nat)
deriving DecidableEq

/-- The Rust `?` operator on a primitive result: propagate the error,
otherwise continue with the value and the remaining bytes. -/
def armBind {α : Type} (r : Except UnpackError (α × List Nat))
    (g : α → List Nat → Except UnpackError LendingInstruction) :
    Except UnpackError LendingInstruction :=
  match r with
  | .error e => .error e
  | .ok (v, rest) => g v rest

/-- `LendingInstruction::unpack` (`instruction.rs` lines 479-607): split off
the tag byte (empty input fails at `split_first`), then dispatch on the tag.
The Rust `match tag` on integer literals is rendered as the equivalent
equality dispatch chain; the final arm is the source's default arm. -/
def unpack : List Nat → Except UnpackError LendingInstruction
  | [] => .error .MissingTag
  | tag :: rest =>
    if tag = 0 then
      armBind (unpack_pubkey rest) fun owner rest =>
      armBind (unpack_bytes32 rest) fun quote_currency _rest =>
      .ok (.InitLendingMarket owner quote_currency)
    else if tag = 1 then
      armBind (unpack_pubkey rest) fun new_owner _rest =>
      .ok (.SetLendingMarketOwner new_owner)
    else if tag = 2 then
      armBind (unpack_u8 rest) fun _optimal_utilization_rate rest =>
      armBind (unpack_u8 rest) fun _loan_to_value_ratio rest =>
      armBind (unpack_u8 rest) fun _liquidation_bonus rest =>
      armBind (unpack_u8 rest) fun _liquidation_threshold rest =>
      armBind (unpack_u8 rest) fun _min_borrow_rate rest =>
      armBind (unpack_u8 rest) fun _optimal_borrow_rate rest =>
      armBind (unpack_u8 rest) fun _max_borrow_ratse rest =>
      armBind (unpack_u64 rest) fun _borrow_fee_wad rest =>
      armBind (unpack_u64 rest) fun _reserve_owner_fee_wad rest =>
      armBind (unpack_u64 rest) fun _flash_loan_fee_wad rest =>
      armBind (unpack_u8 rest) fun _host_fee_percentage rest =>
      armBind (unpack_u64 rest) fun total_mining_speed rest =>
      armBind (unpack_u64 rest) fun kink_util_rate rest =>
      armBind (unpack_bool rest) fun use_pyth_oracle rest =>
      armBind (unpack_bool rest) fun is_lp _rest =>
      .ok (.InitReserve total_mining_speed kink_util_rate use_pyth_oracle is_lp)
    else if tag = 3 then .ok .RefreshReserve
    else if tag = 4 then
      armBind (unpack_u64 rest) fun liquidity_amount _rest =>
      .ok (.DepositReserveLiquidity liquidity_amount)
    else if tag = 5 then
      armBind (unpack_u64 rest) fun collateral_amount _rest =>
      .ok (.RedeemReserveCollateral collateral_amount)
    else if tag = 6 then .ok .InitObligation
    else if tag = 7 then .ok .RefreshObligation
    else if tag = 8 then
      armBind (unpack_u64 rest) fun collateral_amount _rest =>
      .ok (.DepositObligationCollateral collateral_amount)
    else if tag = 9 then
      armBind (unpack_u64 rest) fun collateral_amount _rest =>
      .ok (.WithdrawObligationCollateral collateral_amount)
    else if tag = 10 then
      armBind (unpack_u64 rest) fun liquidity_amount _rest =>
      .ok (.BorrowObligationLiquidity liquidity_amount)
    else if tag = 11 then
      armBind (unpack_u64 rest) fun liquidity_amount _rest =>
      .ok (.RepayObligationLiquidity liquidity_amount)
    else if tag = 12 then
      armBind (unpack_u64 rest) fun liquidity_amount _rest =>
      .ok (.LiquidateObligation liquidity_amount)
    else if tag = 13 then
      armBind (unpack_u64 rest) fun amount rest =>
      .ok (.FlashLoan amount rest)
    else if tag = 14 then .ok .SetConfig
    else if tag = 16 then .ok .InitMining
    else if tag = 17 then .ok .RefreshMining
    else if tag = 18 then
      armBind (unpack_u64 rest) fun amount _rest =>
      .ok (.DepositMining amount)
    else if tag = 19 then
      armBind (unpack_u64 rest) fun amount _rest =>
      .ok (.WithdrawMining amount)
    else if tag = 20 then .ok .ClaimMiningMine
    else if tag = 21 then .ok .ClaimObligationMine
    else if tag = 22 then .ok .ClaimOwnerFee
    else if tag = 23 then .ok .ReceivePendingOwner
    else if tag = 24 then .ok .RefreshReserves
    else if tag = 25 then
      armBind (unpack_u64 rest) fun liquidity_amount _rest =>
      .ok (.LiquidateObligation2 liquidity_amount)
    else if tag = 26 then
      armBind (unpack_u16 rest) fun subsidy_times rest =>
      armBind (unpack_u16 rest) fun claim_ratio _rest =>
      .ok (.ClaimMine subsidy_times claim_ratio)
    else .error .UnrecognizedOperation

/-- `u64::to_le_bytes`: the eight little-endian bytes of a 64-bit value. -/
def u64le (n : Nat) : List Nat :=
  [n % 256, n / 256 % 256, n / 256 ^ 2 % 256, n / 256 ^ 3 % 256,
   n / 256 ^ 4 % 256, n / 256 ^ 5 % 256, n / 256 ^ 6 % 256, n / 256 ^ 7 % 256]

/-- `u16::to_le_bytes`: the two little-endian bytes of a 16-bit value. -/
def u16le (n : Nat) : List Nat :=
  [n % 256, n / 256 % 256]

/-- `LendingInstruction::pack` (`instruction.rs` lines 609-679).  The source
matches on a subset of the variants; every other variant falls into the
default arm `_ => { // TODO: implementation }`, which leaves the buffer
empty, so those variants encode to `[]`. -/
def pack : LendingInstruction → List Nat
  | .RefreshReserves => [24]
  | .DepositReserveLiquidity liquidity_amount => 4 :: u64le liquidity_amount
  | .RedeemReserveCollateral collateral_amount => 5 :: u64le collateral_amount
  | .InitObligation => [6]
  | .RefreshObligation => [7]
  | .DepositObligationCollateral collateral_amount => 8 :: u64le collateral_amount
  | .WithdrawObligationCollateral collateral_amount => 9 :: u64le collateral_amount
  | .BorrowObligationLiquidity liquidity_amount => 10 :: u64le liquidity_amount
  | .RepayObligationLiquidity liquidity_amount => 11 :: u64le liquidity_amount
  | .InitMining => [16]
  | .RefreshMining => [17]
  | .DepositMining amount => 18 :: u64le amount
  | .WithdrawMining amount => 19 :: u64le amount
  | .ClaimMiningMine => [20]
  | .ClaimObligationMine => [21]
  | .LiquidateObligation2 liquidity_amount => 25 :: u64le liquidity_amount
  | .ClaimMine claim_times claim_ratio =>
      26 :: (u16le claim_times ++ u16le claim_ratio)
  | _ => []

/-- Solana `AccountMeta`: one resource reference slot. -/
structure AccountMeta where
  pubkey : Pubkey
  is_signer : Bool
  is_writable : Bool
deriving DecidableEq

/-- `AccountMeta::new`: writable slot with the given signer flag. -/
def AccountMeta.new (pubkey : Pubkey) (is_signer : Bool) : AccountMeta :=
  { pubkey := pubkey, is_signer := is_signer, is_writable := true }

/-- `AccountMeta::new_readonly`: read-only slot with the given signer flag. -/
def AccountMeta.new_readonly (pubkey : Pubkey) (is_signer : Bool) : AccountMeta :=
  { pubkey := pubkey, is_signer := is_signer, is_writable := false }

/-- Solana `Instruction`: target program, ordered resource list, payload. -/
structure Instruction where
  program_id : Pubkey
  accounts : List AccountMeta
  data : List Nat
deriving DecidableEq

/-- The account loop of `refresh_reserves` (`instruction.rs` lines 686-690):
`for i in 0..reserves.len()` push `reserves[i]` writable then `oracles[i]`
read-only.  Iterating the indices of `reserves` pairs the two lists
positionally and ignores surplus oracles; when `oracles` runs out while
reserves remain, the Rust indexing `oracles[i]` is out of bounds (a panic),
modelled as `none`. -/
def refreshAccounts : List Pubkey → List Pubkey → Option (List AccountMeta)
  | [], _ => some []
  | r :: rs, o :: os =>
      (refreshAccounts rs os).map fun t =>
        AccountMeta.new r false :: AccountMeta.new_readonly o false :: t
  | _ :: _, [] => none

/-- `refresh_reserves` (`instruction.rs` lines 681-696): build the account
list by the index loop, then assemble the instruction with the packed
`RefreshReserves` payload.  `none` models the out-of-bounds panic of the
loop; the source performs no length validation of its own. -/
def refresh_reserves (program_id : Pubkey) (reserves oracles : List Pubkey) :
    Option Instruction :=
  match refreshAccounts reserves oracles with
  | none => none
  | some accounts =>
      some { program_id := program_id, accounts := accounts,
             data := pack .RefreshReserves }

/-- The canonical byte of a boolean. -/
def boolByte : Bool → Nat
  | false => 0
  | true => 1

/-- The tag values the decoder dispatches on: `0..14` and `16..26`. -/
def registeredTags : List Nat :=
  [0, 1, 2, 3, 4, 5, 6, 7, 8, 9, 10, 11, 12, 13, 14,
   16, 17, 18, 19, 20, 21, 22, 23, 24, 25, 26]

/-- Concrete 32-byte identity used in witnesses and counterexamples. -/
def pk0 : Pubkey := List.replicate 32 0

/-- A second concrete 32-byte identity. -/
def pk1 : Pubkey := List.replicate 32 1

/-- A fixed-width primitive respects buffer extension: whatever it parses
from a buffer it parses identically from the buffer with bytes appended,
the appended bytes landing in the remainder. -/
def ExtOk {α : Type} (f : List Nat → Except UnpackError (α × List Nat)) : Prop :=
  ∀ l e v r, f l = .ok (v, r) → f (l ++ e) = .ok (v, r ++ e)

/-- A decode arm ignores bytes beyond what it consumes. -/
def ArmExt (f : List Nat → Except UnpackError LendingInstruction) : Prop :=
  ∀ l e d, f l = .ok d → f (l ++ e) = .ok d

theorem unpack_u8_cons (b : Nat) (rest : List Nat) :
    unpack_u8 (b :: rest) = .ok (b, rest) := rfl

theorem unpack_u64_append (w rest : List Nat) (h : w.length = 8) :
    unpack_u64 (w ++ rest) = .ok (leDecode w, rest) := by
  have hlen : 8 ≤ (w ++ rest).length := by
    rw [List.length_append, h]; omega
  rw [unpack_u64, if_pos hlen, ← h, List.take_left, List.drop_left]

theorem unpack_u16_append (w rest : List Nat) (h : w.length = 2) :
    unpack_u16 (w ++ rest) = .ok (leDecode w, rest) := by
  have hlen : 2 ≤ (w ++ rest).length := by
    rw [List.length_append, h]; omega
  rw [unpack_u16, if_pos hlen, ← h, List.take_left, List.drop_left]

theorem unpack_pubkey_append (w rest : List Nat) (h : w.length = 32) :
    unpack_pubkey (w ++ rest) = .ok (w, rest) := by
  have hlen : 32 ≤ (w ++ rest).length := by
    rw [List.length_append, h]; omega
  rw [unpack_pubkey, if_pos hlen, ← h, List.take_left, List.drop_left]

theorem unpack_bytes32_append (w rest : List Nat) (h : w.length = 32) :
    unpack_bytes32 (w ++ rest) = .ok (w, rest) := by
  have hlen : 32 ≤ (w ++ rest).length := by
    rw [List.length_append, h]; omega
  rw [unpack_bytes32, if_pos hlen, ← h, List.take_left, List.drop_left]

theorem unpack_bool_cons (b : Bool) (rest : List Nat) :
    unpack_bool (boolByte b :: rest) = .ok (b, rest) := by
  cases b <;> rfl

theorem unpack_u8_extOk : ExtOk unpack_u8 := by
  intro l e v r h
  cases l with
  | nil => simp [unpack_u8] at h
  | cons b t =>
    simp [unpack_u8] at h
    simp [unpack_u8, h.1, h.2]

theorem unpack_u64_extOk : ExtOk unpack_u64 := by
  intro l e v r h
  rw [unpack_u64] at h
  by_cases hlen : 8 ≤ l.length
  · rw [if_pos hlen] at h
    simp only [Except.ok.injEq, Prod.mk.injEq] at h
    have htake : (l.take 8).length = 8 := by
      rw [List.length_take]; omega
    have hsplit : l ++ e = l.take 8 ++ (l.drop 8 ++ e) := by
      rw [← List.append_assoc, List.take_append_drop]
    rw [hsplit, unpack_u64_append _ _ htake, h.1, h.2]
  · rw [if_neg hlen] at h
    exact absurd h (by simp)

theorem unpack_u16_extOk : ExtOk unpack_u16 := by
  intro l e v r h
  rw [unpack_u16] at h
  by_cases hlen : 2 ≤ l.length
  · rw [if_pos hlen] at h
    simp only [Except.ok.injEq, Prod.mk.injEq] at h
    have htake : (l.take 2).length = 2 := by
      rw [List.length_take]; omega
    have hsplit : l ++ e = l.take 2 ++ (l.drop 2 ++ e) := by
      rw [← List.append_assoc, List.take_append_drop]
    rw [hsplit, unpack_u16_append _ _ htake, h.1, h.2]
  · rw [if_neg hlen] at h
    exact absurd h (by simp)

theorem unpack_pubkey_extOk : ExtOk unpack_pubkey := by
  intro l e v r h
  rw [unpack_pubkey] at h
  by_cases hlen : 32 ≤ l.length
  · rw [if_pos hlen] at h
    simp only [Except.ok.injEq, Prod.mk.injEq] at h
    have htake : (l.take 32).length = 32 := by
      rw [List.length_take]; omega
    have hsplit : l ++ e = l.take 32 ++ (l.drop 32 ++ e) := by
      rw [← List.append_assoc, List.take_append_drop]
    rw [hsplit, unpack_pubkey_append _ _ htake, h.1, h.2]
  · rw [if_neg hlen] at h
    exact absurd h (by simp)

theorem unpack_bytes32_extOk : ExtOk unpack_bytes32 := by
  intro l e v r h
  rw [unpack_bytes32] at h
  by_cases hlen : 32 ≤ l.length
  · rw [if_pos hlen] at h
    simp only [Except.ok.injEq, Prod.mk.injEq] at h
    have htake : (l.take 32).length = 32 := by
      rw [List.length_take]; omega
    have hsplit : l ++ e = l.take 32 ++ (l.drop 32 ++ e) := by
      rw [← List.append_assoc, List.take_append_drop]
    rw [hsplit, unpack_bytes32_append _ _ htake, h.1, h.2]
  · rw [if_neg hlen] at h
    exact absurd h (by simp)

theorem unpack_bool_extOk : ExtOk unpack_bool := by
  intro l e v r h
  match l with
  | [] => simp [unpack_bool] at h
  | 0 :: t =>
    simp [unpack_bool] at h
    simp [unpack_bool, h.1, h.2]
  | 1 :: t =>
    simp [unpack_bool] at h
    simp [unpack_bool, h.1, h.2]
  | (n + 2) :: t => simp [unpack_bool] at h

theorem armBind_ext {α : Type} {f : List Nat → Except UnpackError (α × List Nat)}
    {g : α → List Nat → Except UnpackError LendingInstruction}
    (hf : ExtOk f) (hg : ∀ v, ArmExt (g v)) :
    ArmExt (fun l => armBind (f l) g) := by
  intro l e d h
  simp only at h ⊢
  cases hfl : f l with
  | error err => rw [hfl] at h; simp [armBind] at h
  | ok p =>
    obtain ⟨v, r⟩ := p
    rw [hfl] at h
    rw [hf l e v r hfl]
    simp only [armBind] at h ⊢
    exact hg v r e d h

theorem armConst_ext (d0 : LendingInstruction) :
    ArmExt (fun _ => .ok d0) := fun _ _ _ h => h

/-- The resource list the spec describes for the refresh-reserves builder:
the paired lists zipped in caller order, each pair contributing the reserve
as a writable non-signer slot followed by its oracle as a read-only
non-signer slot. -/
def interleaveMetas (reserves oracles : List Pubkey) : List AccountMeta :=
  (reserves.zip oracles).foldr
    (fun p t => AccountMeta.new p.1 false :: AccountMeta.new_readonly p.2 false :: t)
    []

theorem refreshAccounts_eq_of_le :
    ∀ reserves oracles : List Pubkey, reserves.length ≤ oracles.length →
      refreshAccounts reserves oracles = some (interleaveMetas reserves oracles)
  | [], _, _ => rfl
  | r :: rs, [], h => by simp at h
  | r :: rs, o :: os, h => by
    have ih := refreshAccounts_eq_of_le rs os (by simpa using h)
    simp [refreshAccounts, ih, interleaveMetas, List.zip]

theorem refreshAccounts_none_of_lt :
    ∀ reserves oracles : List Pubkey, oracles.length < reserves.length →
      refreshAccounts reserves oracles = none
  | [], _, h => by simp at h
  | r :: rs, [], _ => rfl
  | r :: rs, o :: os, h => by
    have ih := refreshAccounts_none_of_lt rs os (by simpa using h)
    simp [refreshAccounts, ih]

theorem refreshAccounts_take :
    ∀ reserves oracles : List Pubkey,
      refreshAccounts reserves oracles
        = refreshAccounts reserves (oracles.take reserves.length)
  | [], _ => rfl
  | r :: rs, [] => rfl
  | r :: rs, o :: os => by
    have ih := refreshAccounts_take rs os
    simp [refreshAccounts, List.take, ih]

theorem interleaveMetas_length :
    ∀ reserves oracles : List Pubkey, reserves.length ≤ oracles.length →
      (interleaveMetas reserves oracles).length = 2 * reserves.length
  | [], _, _ => rfl
  | r :: rs, [], h => by simp at h
  | r :: rs, o :: os, h => by
    have ih := interleaveMetas_length rs os (by simpa using h)
    simp [interleaveMetas, List.zip] at ih ⊢
    omega

theorem unpack_tag13 (rest : List Nat) :
    unpack (13 :: rest) =
      armBind (unpack_u64 rest) fun amount rest => .ok (.FlashLoan amount rest) := rfl

theorem unpack_tag2 (rest : List Nat) :
    unpack (2 :: rest) =
      (armBind (unpack_u8 rest) fun _optimal_utilization_rate rest =>
       armBind (unpack_u8 rest) fun _loan_to_value_ratio rest =>
       armBind (unpack_u8 rest) fun _liquidation_bonus rest =>
       armBind (unpack_u8 rest) fun _liquidation_threshold rest =>
       armBind (unpack_u8 rest) fun _min_borrow_rate rest =>
       armBind (unpack_u8 rest) fun _optimal_borrow_rate rest =>
       armBind (unpack_u8 rest) fun _max_borrow_ratse rest =>
       armBind (unpack_u64 rest) fun _borrow_fee_wad rest =>
       armBind (unpack_u64 rest) fun _reserve_owner_fee_wad rest =>
       armBind (unpack_u64 rest) fun _flash_loan_fee_wad rest =>
       armBind (unpack_u8 rest) fun _host_fee_percentage rest =>
       armBind (unpack_u64 rest) fun total_mining_speed rest =>
       armBind (unpack_u64 rest) fun kink_util_rate rest =>
       armBind (unpack_bool rest) fun use_pyth_oracle rest =>
       armBind (unpack_bool rest) fun is_lp _rest =>
       .ok (.InitReserve total_mining_speed kink_util_rate use_pyth_oracle is_lp)) := rfl

theorem unpack_tag0 (rest : List Nat) :
    unpack (0 :: rest) =
      (armBind (unpack_pubkey rest) fun owner rest =>
       armBind (unpack_bytes32 rest) fun quote_currency _rest =>
       .ok (.InitLendingMarket owner quote_currency)) := rfl

theorem unpack_tag1 (rest : List Nat) :
    unpack (1 :: rest) =
      (armBind (unpack_pubkey rest) fun new_owner _rest =>
       .ok (.SetLendingMarketOwner new_owner)) := rfl

theorem unpack_tag3 (rest : List Nat) :
    unpack (3 :: rest) = .ok .RefreshReserve := rfl

theorem unpack_tag4 (rest : List Nat) :
    unpack (4 :: rest) =
      (armBind (unpack_u64 rest) fun liquidity_amount _rest =>
       .ok (.DepositReserveLiquidity liquidity_amount)) := rfl

theorem unpack_tag5 (rest : List Nat) :
    unpack (5 :: rest) =
      (armBind (unpack_u64 rest) fun collateral_amount _rest =>
       .ok (.RedeemReserveCollateral collateral_amount)) := rfl

theorem unpack_tag6 (rest : List Nat) :
    unpack (6 :: rest) = .ok .InitObligation := rfl

theorem unpack_tag7 (rest : List Nat) :
    unpack (7 :: rest) = .ok .RefreshObligation := rfl

theorem unpack_tag8 (rest : List Nat) :
    unpack (8 :: rest) =
      (armBind (unpack_u64 rest) fun collateral_amount _rest =>
       .ok (.DepositObligationCollateral collateral_amount)) := rfl

theorem unpack_tag9 (rest : List Nat) :
    unpack (9 :: rest) =
      (armBind (unpack_u64 rest) fun collateral_amount _rest =>
       .ok (.WithdrawObligationCollateral collateral_amount)) := rfl

theorem unpack_tag10 (rest : List Nat) :
    unpack (10 :: rest) =
      (armBind (unpack_u64 rest) fun liquidity_amount _rest =>
       .ok (.BorrowObligationLiquidity liquidity_amount)) := rfl

theorem unpack_tag11 (rest : List Nat) :
    unpack (11 :: rest) =
      (armBind (unpack_u64 rest) fun liquidity_amount _rest =>
       .ok (.RepayObligationLiquidity liquidity_amount)) := rfl

theorem unpack_tag12 (rest : List Nat) :
    unpack (12 :: rest) =
      (armBind (unpack_u64 rest) fun liquidity_amount _rest =>
       .ok (.LiquidateObligation liquidity_amount)) := rfl

theorem unpack_tag14 (rest : List Nat) :
    unpack (14 :: rest) = .ok .SetConfig := rfl

theorem unpack_tag16 (rest : List Nat) :
    unpack (16 :: rest) = .ok .InitMining := rfl

theorem unpack_tag17 (rest : List Nat) :
    unpack (17 :: rest) = .ok .RefreshMining := rfl

theorem unpack_tag18 (rest : List Nat) :
    unpack (18 :: rest) =
      (armBind (unpack_u64 rest) fun amount _rest =>
       .ok (.DepositMining amount)) := rfl

theorem unpack_tag19 (rest : List Nat) :
    unpack (19 :: rest) =
      (armBind (unpack_u64 rest) fun amount _rest =>
       .ok (.WithdrawMining amount)) := rfl

theorem unpack_tag20 (rest : List Nat) :
    unpack (20 :: rest) = .ok .ClaimMiningMine := rfl

theorem unpack_tag21 (rest : List Nat) :
    unpack (21 :: rest) = .ok .ClaimObligationMine := rfl

theorem unpack_tag22 (rest : List Nat) :
    unpack (22 :: rest) = .ok .ClaimOwnerFee := rfl

theorem unpack_tag23 (rest : List Nat) :
    unpack (23 :: rest) = .ok .ReceivePendingOwner := rfl

theorem unpack_tag24 (rest : List Nat) :
    unpack (24 :: rest) = .ok .RefreshReserves := rfl

theorem unpack_tag25 (rest : List Nat) :
    unpack (25 :: rest) =
      (armBind (unpack_u64 rest) fun liquidity_amount _rest =>
       .ok (.LiquidateObligation2 liquidity_amount)) := rfl

theorem unpack_tag26 (rest : List Nat) :
    unpack (26 :: rest) =
      (armBind (unpack_u16 rest) fun subsidy_times rest =>
       armBind (unpack_u16 rest) fun claim_ratio _rest =>
       .ok (.ClaimMine subsidy_times claim_ratio)) := rfl

/-- C4: decoding the empty byte buffer fails with the missing-tag error (the
`split_first` failure site of `unpack`). -/
theorem claim_C4 : unpack [] = .error .MissingTag := rfl

/-- C2: the source encoder maps `RefreshReserve` to the empty byte vector,
not to `[3]` as the spec states: the `RefreshReserve` variant falls into the
default `TODO` arm of `pack`, which pushes nothing. -/
theorem claim_C2 :
    pack .RefreshReserve = [] ∧ pack .RefreshReserve ≠ [3] := by
  decide

/-- C1: the round-trip law `pack (unpack bytes) = bytes` fails on the code
for every variant that the source encoder leaves to its `TODO` default arm:
for the canonical minimal buffers of tags 0, 1, 2, 3, 12, 13, 14, 22 and 23
the decoder succeeds but the encoder returns the empty byte vector, not the
original buffer. -/
theorem claim_C1 :
    (unpack (0 :: List.replicate 64 0)).map pack = .ok [] ∧
    (unpack (1 :: List.replicate 32 0)).map pack = .ok [] ∧
    (unpack (2 :: List.replicate 50 0)).map pack = .ok [] ∧
    (unpack [3]).map pack = .ok [] ∧
    (unpack (12 :: u64le 5)).map pack = .ok [] ∧
    (unpack (13 :: u64le 5)).map pack = .ok [] ∧
    (unpack [14]).map pack = .ok [] ∧
    (unpack [22]).map pack = .ok [] ∧
    (unpack [23]).map pack = .ok [] := by
  refine ⟨rfl, rfl, rfl, rfl, rfl, rfl, rfl, rfl, rfl⟩

theorem unpack_unregistered (tag : Nat) (rest : List Nat)
    (h : tag ∉ registeredTags) :
    unpack (tag :: rest) = .error .UnrecognizedOperation := by
  simp only [registeredTags, List.mem_cons, List.not_mem_nil, or_false,
    not_or] at h
  obtain ⟨h0, h1, h2, h3, h4, h5, h6, h7, h8, h9, h10, h11, h12, h13, h14,
    h16, h17, h18, h19, h20, h21, h22, h23, h24, h25, h26⟩ := h
  simp only [unpack]
  rw [if_neg h0, if_neg h1, if_neg h2, if_neg h3, if_neg h4, if_neg h5,
    if_neg h6, if_neg h7, if_neg h8, if_neg h9, if_neg h10, if_neg h11,
    if_neg h12, if_neg h13, if_neg h14, if_neg h16, if_neg h17, if_neg h18,
    if_neg h19, if_neg h20, if_neg h21, if_neg h22, if_neg h23, if_neg h24,
    if_neg h25, if_neg h26]

/-- C5: any tag outside the registered set `{0..14, 16..26}` falls into the
default arm of the decode dispatch and fails with the unrecognized-operation
error, whatever bytes follow the tag. -/
theorem claim_C5 (tag : Nat) (rest : List Nat) (h : tag ∉ registeredTags) :
    unpack (tag :: rest) = .error .UnrecognizedOperation :=
  unpack_unregistered tag rest h

/-- Witness for C5 at the concrete tags 15, 27 and 255. -/
theorem claim_C5_witness :
    (15 ∉ registeredTags ∧ unpack [15, 1, 2] = .error .UnrecognizedOperation) ∧
    (27 ∉ registeredTags ∧ unpack [27] = .error .UnrecognizedOperation) ∧
    (255 ∉ registeredTags ∧ unpack (255 :: u64le 9) = .error .UnrecognizedOperation) :=
  ⟨⟨by decide, claim_C5 15 [1, 2] (by decide)⟩,
   ⟨by decide, claim_C5 27 [] (by decide)⟩,
   ⟨by decide, claim_C5 255 (u64le 9) (by decide)⟩⟩

/-- C6: decoding tag 13 with an 8-byte little-endian amount followed by any
trailing bytes succeeds, and the trailing bytes become the callback data
verbatim; nothing after the amount can make the decode fail. -/
theorem claim_C6 (amt t : List Nat) (h : amt.length = 8) :
    unpack (13 :: (amt ++ t)) = .ok (.FlashLoan (leDecode amt) t) := by
  rw [unpack_tag13, unpack_u64_append _ _ h]
  rfl

/-- Witness for C6: amount 1000 with trailing lengths 0, 1 and 37. -/
theorem claim_C6_witness :
    unpack (13 :: (u64le 1000 ++ [])) = .ok (.FlashLoan 1000 []) ∧
    unpack (13 :: (u64le 1000 ++ [7])) = .ok (.FlashLoan 1000 [7]) ∧
    unpack (13 :: (u64le 1000 ++ List.replicate 37 5)) =
      .ok (.FlashLoan 1000 (List.replicate 37 5)) :=
  ⟨claim_C6 (u64le 1000) [] rfl,
   claim_C6 (u64le 1000) [7] rfl,
   claim_C6 (u64le 1000) (List.replicate 37 5) rfl⟩

/-- C7: decoding tag 2 parses and discards the nine legacy fields (seven
`u8`, three `u64`, one `u8`, in that order and width) and retains only the
trailing four fields; the resulting descriptor does not depend on the legacy
bytes, which do not occur on the right-hand side. -/
theorem claim_C7 (a1 a2 a3 a4 a5 a6 a7 a8 : Nat) (w1 w2 w3 v1 v2 : List Nat)
    (p l : Bool) (t : List Nat)
    (h1 : w1.length = 8) (h2 : w2.length = 8) (h3 : w3.length = 8)
    (hv1 : v1.length = 8) (hv2 : v2.length = 8) :
    unpack (2 :: ([a1, a2, a3, a4, a5, a6, a7] ++ (w1 ++ (w2 ++ (w3 ++
        ([a8] ++ (v1 ++ (v2 ++ (boolByte p :: (boolByte l :: t)))))))))) =
      .ok (.InitReserve (leDecode v1) (leDecode v2) p l) := by
  rw [unpack_tag2]
  simp only [List.cons_append, List.nil_append, unpack_u8, armBind,
    unpack_u64_append _ _ h1, unpack_u64_append _ _ h2,
    unpack_u64_append _ _ h3, unpack_u64_append _ _ hv1,
    unpack_u64_append _ _ hv2, unpack_bool_cons]

/-- Witness for C7: arbitrary legacy values `1..7`, `11,12,13`, `99`, then
`total_mining_speed = 42`, `kink_util_rate = 7`, `use_pyth_oracle = true`,
`is_lp = false`. -/
theorem claim_C7_witness :
    unpack (2 :: ([1, 2, 3, 4, 5, 6, 7] ++ (u64le 11 ++ (u64le 12 ++ (u64le 13 ++
        ([99] ++ (u64le 42 ++ (u64le 7 ++ (1 :: (0 :: [])))))))))) =
      .ok (.InitReserve 42 7 true false) :=
  claim_C7 1 2 3 4 5 6 7 99 (u64le 11) (u64le 12) (u64le 13) (u64le 42)
    (u64le 7) true false [] rfl rfl rfl rfl rfl

/-- C9: for every registered tag other than 13, the decoder reads only the
fixed fields of the tag: a successful decode is unchanged when arbitrary
bytes are appended to the buffer (so over-long input never fails, and decode
is not injective on accepted buffers). -/
theorem claim_C9 (tag : Nat) (rest extra : List Nat) (d : LendingInstruction)
    (ht : tag ≠ 13) (h : unpack (tag :: rest) = .ok d) :
    unpack (tag :: (rest ++ extra)) = .ok d := by
  by_cases hlt : tag < 27
  · interval_cases tag
    · rw [unpack_tag0] at h ⊢
      exact armBind_ext unpack_pubkey_extOk
        (fun _ => armBind_ext unpack_bytes32_extOk
          (fun _ => armConst_ext _)) rest extra d h
    · rw [unpack_tag1] at h ⊢
      exact armBind_ext unpack_pubkey_extOk
        (fun _ => armConst_ext _) rest extra d h
    · rw [unpack_tag2] at h ⊢
      exact armBind_ext unpack_u8_extOk (fun _ =>
        armBind_ext unpack_u8_extOk (fun _ =>
        armBind_ext unpack_u8_extOk (fun _ =>
        armBind_ext unpack_u8_extOk (fun _ =>
        armBind_ext unpack_u8_extOk (fun _ =>
        armBind_ext unpack_u8_extOk (fun _ =>
        armBind_ext unpack_u8_extOk (fun _ =>
        armBind_ext unpack_u64_extOk (fun _ =>
        armBind_ext unpack_u64_extOk (fun _ =>
        armBind_ext unpack_u64_extOk (fun _ =>
        armBind_ext unpack_u8_extOk (fun _ =>
        armBind_ext unpack_u64_extOk (fun _ =>
        armBind_ext unpack_u64_extOk (fun _ =>
        armBind_ext unpack_bool_extOk (fun _ =>
        armBind_ext unpack_bool_extOk (fun _ =>
        armConst_ext _))))))))))))))) rest extra d h
    · rw [unpack_tag3] at h ⊢; exact h
    · rw [unpack_tag4] at h ⊢
      exact armBind_ext unpack_u64_extOk (fun _ => armConst_ext _) rest extra d h
    · rw [unpack_tag5] at h ⊢
      exact armBind_ext unpack_u64_extOk (fun _ => armConst_ext _) rest extra d h
    · rw [unpack_tag6] at h ⊢; exact h
    · rw [unpack_tag7] at h ⊢; exact h
    · rw [unpack_tag8] at h ⊢
      exact armBind_ext unpack_u64_extOk (fun _ => armConst_ext _) rest extra d h
    · rw [unpack_tag9] at h ⊢
      exact armBind_ext unpack_u64_extOk (fun _ => armConst_ext _) rest extra d h
    · rw [unpack_tag10] at h ⊢
      exact armBind_ext unpack_u64_extOk (fun _ => armConst_ext _) rest extra d h
    · rw [unpack_tag11] at h ⊢
      exact armBind_ext unpack_u64_extOk (fun _ => armConst_ext _) rest extra d h
    · rw [unpack_tag12] at h ⊢
      exact armBind_ext unpack_u64_extOk (fun _ => armConst_ext _) rest extra d h
    · exact absurd rfl ht
    · rw [unpack_tag14] at h ⊢; exact h
    · rw [unpack_unregistered 15 rest (by decide)] at h; exact absurd h (by simp)
    · rw [unpack_tag16] at h ⊢; exact h
    · rw [unpack_tag17] at h ⊢; exact h
    · rw [unpack_tag18] at h ⊢
      exact armBind_ext unpack_u64_extOk (fun _ => armConst_ext _) rest extra d h
    · rw [unpack_tag19] at h ⊢
      exact armBind_ext unpack_u64_extOk (fun _ => armConst_ext _) rest extra d h
    · rw [unpack_tag20] at h ⊢; exact h
    · rw [unpack_tag21] at h ⊢; exact h
    · rw [unpack_tag22] at h ⊢; exact h
    · rw [unpack_tag23] at h ⊢; exact h
    · rw [unpack_tag24] at h ⊢; exact h
    · rw [unpack_tag25] at h ⊢
      exact armBind_ext unpack_u64_extOk (fun _ => armConst_ext _) rest extra d h
    · rw [unpack_tag26] at h ⊢
      exact armBind_ext unpack_u16_extOk
        (fun _ => armBind_ext unpack_u16_extOk
          (fun _ => armConst_ext _)) rest extra d h
  · have hmem : tag ∉ registeredTags := by
      intro hm
      simp only [registeredTags, List.mem_cons, List.not_mem_nil,
        or_false] at hm
      omega
    rw [unpack_unregistered tag rest hmem] at h
    exact absurd h (by simp)

/-- Witness for C9: a tag-4 buffer decoded once minimal and once with two
extra bytes appended yields the same descriptor. -/
theorem claim_C9_witness :
    unpack (4 :: (u64le 77 ++ [9, 9])) = .ok (.DepositReserveLiquidity 77) :=
  claim_C9 4 (u64le 77) [9, 9] (.DepositReserveLiquidity 77) (by decide) rfl

theorem refresh_reserves_of_le (pid : Pubkey) (reserves oracles : List Pubkey)
    (h : reserves.length ≤ oracles.length) :
    refresh_reserves pid reserves oracles =
      some { program_id := pid,
             accounts := interleaveMetas reserves oracles, data := [24] } := by
  rw [refresh_reserves, refreshAccounts_eq_of_le reserves oracles h]
  rfl

/-- C3 counterexample: with `reserves = []` and `oracles = [pk1]` the two
lists have unequal lengths, yet the builder succeeds and produces an
invocation descriptor — it raises no length-mismatch failure of any kind. -/
theorem claim_C3_cex :
    ([] : List Pubkey).length ≠ [pk1].length ∧
    refresh_reserves pk0 [] [pk1] =
      some { program_id := pk0, accounts := [], data := [24] } :=
  ⟨by decide, rfl⟩

/-- C3 amended: the builder validates nothing.  On unequal lengths it never
raises a length-mismatch failure: when the oracle list is at least as long
as the reserve list it produces a descriptor (ignoring the surplus), and
when the oracle list is shorter the oracle indexing goes out of bounds (a
panic, modelled as `none`). -/
theorem claim_C3 (pid : Pubkey) (reserves oracles : List Pubkey)
    (h : reserves.length ≠ oracles.length) :
    (reserves.length ≤ oracles.length →
      refresh_reserves pid reserves oracles =
        some { program_id := pid,
               accounts := interleaveMetas reserves oracles, data := [24] }) ∧
    (oracles.length < reserves.length →
      refresh_reserves pid reserves oracles = none) := by
  constructor
  · intro hle
    exact refresh_reserves_of_le pid reserves oracles hle
  · intro hlt
    rw [refresh_reserves, refreshAccounts_none_of_lt reserves oracles hlt]

/-- Witness for C3 (amended) at both sides: one surplus oracle, and one
missing oracle. -/
theorem claim_C3_witness :
    (([pk0] : List Pubkey).length ≠ [pk0, pk1].length ∧
      refresh_reserves pk0 [pk0] [pk0, pk1] =
        some { program_id := pk0,
               accounts := interleaveMetas [pk0] [pk0, pk1], data := [24] }) ∧
    (([pk0, pk1] : List Pubkey).length ≠ [pk0].length ∧
      refresh_reserves pk0 [pk0, pk1] [pk0] = none) :=
  ⟨⟨by decide, (claim_C3 pk0 [pk0] [pk0, pk1] (by decide)).1 (by decide)⟩,
   ⟨by decide, (claim_C3 pk0 [pk0, pk1] [pk0] (by decide)).2 (by decide)⟩⟩

/-- C8: with equal-length lists the builder produces exactly the interleaved
resource list `[R1(writable, non-signer), O1(read-only, non-signer), ...]`
in caller order, of length `2 × n`, with no reordering, deduplication or
coalescing (the equality holds for all lists, repeated identities included),
and the packed `RefreshReserves` payload `[24]`. -/
theorem claim_C8 (pid : Pubkey) (reserves oracles : List Pubkey)
    (h : reserves.length = oracles.length) :
    refresh_reserves pid reserves oracles =
      some { program_id := pid,
             accounts := interleaveMetas reserves oracles, data := [24] } ∧
    (interleaveMetas reserves oracles).length = 2 * reserves.length := by
  constructor
  · exact refresh_reserves_of_le pid reserves oracles h.le
  · exact interleaveMetas_length reserves oracles h.le

/-- Witness for C8: two reserves and two oracles, with a repeated identity,
produce the four interleaved slots in caller order. -/
theorem claim_C8_witness :
    refresh_reserves pk0 [pk1, pk1] [pk0, pk1] =
      some { program_id := pk0,
             accounts := [AccountMeta.new pk1 false,
                          AccountMeta.new_readonly pk0 false,
                          AccountMeta.new pk1 false,
                          AccountMeta.new_readonly pk1 false],
             data := [24] } ∧
    (interleaveMetas [pk1, pk1] [pk0, pk1]).length = 2 * 2 :=
  ⟨(claim_C8 pk0 [pk1, pk1] [pk0, pk1] rfl).1, (claim_C8 pk0 [pk1, pk1] [pk0, pk1] rfl).2⟩

/-- C10: the builder loops over the indices of the reserve list only; when
the oracle list is at least as long every access is in bounds and the
builder succeeds, its output unchanged by truncating the oracle list to the
reserve count (surplus oracles are silently ignored); and the out-of-bounds
branch of the oracle indexing is reachable when the precondition fails. -/
theorem claim_C10 (pid : Pubkey) (reserves oracles : List Pubkey)
    (h : reserves.length ≤ oracles.length) :
    (∃ i, refresh_reserves pid reserves oracles = some i) ∧
    refresh_reserves pid reserves oracles
      = refresh_reserves pid reserves (oracles.take reserves.length) ∧
    (∃ rs os : List Pubkey, os.length < rs.length ∧
      refresh_reserves pid rs os = none) := by
  refine ⟨⟨_, refresh_reserves_of_le pid reserves oracles h⟩, ?_,
    ⟨[pk0], [], by simp, rfl⟩⟩
  rw [refresh_reserves, refresh_reserves, ← refreshAccounts_take]

/-- Witness for C10: one reserve against three oracles. -/
theorem claim_C10_witness :
    (∃ i, refresh_reserves pk0 [pk1] [pk1, pk0, pk0] = some i) ∧
    refresh_reserves pk0 [pk1] [pk1, pk0, pk0]
      = refresh_reserves pk0 [pk1] (List.take ([pk1] : List Pubkey).length [pk1, pk0, pk0]) ∧
    (∃ rs os : List Pubkey, os.length < rs.length ∧
      refresh_reserves pk0 rs os = none) :=
  claim_C10 pk0 [pk1] [pk1, pk0, pk0] (by decide)

end Larix
